import Mathlib

/-!
Shallow embedding of `daily-steps.py`, a batch job that syncs daily step and
sleep data from a fitness service (Garmin) into two structured tables
(Notion databases), together with proofs about the claims of its
specification.

Python's dynamically typed values are embedded as the inductive type
`PyVal`; machine floats are modelled as rationals (the program only
divides, compares and rounds decimal quantities, and every input relevant
to a claim is exactly representable).  Fallible Python code (code that can
raise) is embedded as `Except String α`, a raised exception being carried
as its message string.  Remote calls (the Garmin client and the Notion
client) are opaque collaborators: each call site takes the outcome of the
remote call as an oracle argument (`Except` valued), and functions return
descriptions of the writes they would issue instead of performing them.
-/

namespace DailySteps

/-- Embedded Python value: `None`, booleans, numbers (as `ℚ`), strings,
lists and string-keyed dicts. -/
inductive PyVal where
  | none
  | bool (b : Bool)
  | num (q : ℚ)
  | str (s : String)
  | list (l : List PyVal)
  | dict (l : List (String × PyVal))

mutual

/-- Python structural equality (`==`/`!=`) on embedded values.  Values of
different shapes compare unequal, as in Python (numbers are merged into
one constructor, matching Python's `8000 == 8000.0`). -/
def PyVal.beq : PyVal → PyVal → Bool
  | PyVal.none, PyVal.none => true
  | PyVal.bool a, PyVal.bool b => a == b
  | PyVal.num a, PyVal.num b => a == b
  | PyVal.str a, PyVal.str b => a == b
  | PyVal.list a, PyVal.list b => PyVal.beqList a b
  | PyVal.dict a, PyVal.dict b => PyVal.beqDict a b
  | _, _ => false

/-- Pointwise `PyVal.beq` on lists. -/
def PyVal.beqList : List PyVal → List PyVal → Bool
  | [], [] => true
  | a :: as, b :: bs => PyVal.beq a b && PyVal.beqList as bs
  | _, _ => false

/-- Pointwise `PyVal.beq` on dict entry lists. -/
def PyVal.beqDict : List (String × PyVal) → List (String × PyVal) → Bool
  | [], [] => true
  | (k1, v1) :: as, (k2, v2) :: bs => k1 == k2 && PyVal.beq v1 v2 && PyVal.beqDict as bs
  | _, _ => false

end

/-- Python truthiness of an embedded value (`if not sleep_data`, ...). -/
def pyTruthy : PyVal → Bool
  | PyVal.none => false
  | PyVal.bool b => b
  | PyVal.num q => q ≠ 0
  | PyVal.str s => s ≠ ""
  | PyVal.list l => !l.isEmpty
  | PyVal.dict l => !l.isEmpty

/-- First value bound to key `k` in a dict entry list. -/
def dictFind (l : List (String × PyVal)) (k : String) : Option PyVal :=
  match l with
  | [] => Option.none
  | (k1, v) :: rest => if k1 = k then some v else dictFind rest k

/-- Python `d.get(k, default)` on a dict entry list. -/
def dictGetD (l : List (String × PyVal)) (k : String) (default : PyVal) : PyVal :=
  (dictFind l k).getD default

/-- Python `v.get(k, default)`: raises `AttributeError` when `v` is not a
dict. -/
def pyGetD (v : PyVal) (k : String) (default : PyVal) : Except String PyVal :=
  match v with
  | PyVal.dict l => Except.ok (dictGetD l k default)
  | _ => Except.error "AttributeError"

/-- Python division of an embedded value by the number literal 3600
(`sleepTimeSeconds / 3600`): numbers (and bools, which are ints in
Python) divide; any other operand raises `TypeError`. -/
def pyDiv3600 : PyVal → Except String ℚ
  | PyVal.num q => Except.ok (q / 3600)
  | PyVal.bool b => Except.ok ((if b then (1 : ℚ) else 0) / 3600)
  | _ => Except.error "TypeError"

/-- Truncation toward zero, the behaviour of Python `int()` on a float. -/
def ratTrunc (q : ℚ) : ℤ :=
  if 0 ≤ q then ⌊q⌋ else ⌈q⌉

/-- Decimal digit value of a character, `none` for a non-digit. -/
def charDigit (c : Char) : Option ℕ :=
  if '0' ≤ c ∧ c ≤ '9' then some (c.toNat - '0'.toNat) else Option.none

/-- Parse a non-empty all-digit char list into a natural number. -/
def parseDigits (acc : ℕ) : List Char → Option ℕ
  | [] => some acc
  | c :: cs =>
    match charDigit c with
    | some d => parseDigits (acc * 10 + d) cs
    | Option.none => Option.none

/-- Python `int(s)` on a string: an optional sign followed by at least
one decimal digit (surrounding whitespace and digit-group underscores,
which Python also accepts, are not modelled — no claim exercises them);
`none` embeds the `ValueError` raised on anything else. -/
def pyIntOfStr (s : String) : Option ℤ :=
  match s.data with
  | [] => Option.none
  | '-' :: cs =>
    match cs with
    | [] => Option.none
    | _ :: _ => (parseDigits 0 cs).map (fun n => -(n : ℤ))
  | '+' :: cs =>
    match cs with
    | [] => Option.none
    | _ :: _ => (parseDigits 0 cs).map (fun n => (n : ℤ))
  | cs => (parseDigits 0 cs).map (fun n => (n : ℤ))

/-- Python `int(v)`: truncates numbers, parses integer strings (raising
`ValueError` on an unparsable string), maps `True`/`False` to 1/0, and
raises `TypeError` on anything else. -/
def pyInt : PyVal → Except String ℤ
  | PyVal.num q => Except.ok (ratTrunc q)
  | PyVal.bool b => Except.ok (if b then 1 else 0)
  | PyVal.str s =>
    match pyIntOfStr s with
    | some n => Except.ok n
    | Option.none => Except.error "ValueError"
  | _ => Except.error "TypeError"

/-- Python `v >= c` against a numeric literal `c`: defined for numbers and
bools, raises `TypeError` otherwise. -/
def pyGeNum (v : PyVal) (c : ℚ) : Except String Bool :=
  match v with
  | PyVal.num q => Except.ok (decide (q ≥ c))
  | PyVal.bool b => Except.ok (decide ((if b then (1 : ℚ) else 0) ≥ c))
  | _ => Except.error "TypeError"

/-- Whether the char list `l` starts with the char list `pat`. -/
def listStartsWith : List Char → List Char → Bool
  | _, [] => true
  | [], _ :: _ => false
  | c :: cs, p :: ps => c = p && listStartsWith cs ps

/-- Whether `pat` occurs as a contiguous sublist of `l`. -/
def listHasSub (l pat : List Char) : Bool :=
  if listStartsWith l pat then true
  else match l with
    | [] => false
    | _ :: cs => listHasSub cs pat

/-- Python `pat in s` substring containment on strings. -/
def strHasSub (s pat : String) : Bool := listHasSub s.data pat.data

/-- The error classifier used at all three retry sites:
`"429" in str(e) or "Too Many Requests" in str(e)`. -/
def is_rate_limit (e : String) : Bool :=
  strHasSub e "429" || strHasSub e "Too Many Requests"

/-- Round half to even on rationals, the behaviour of Python `round()` on
(exactly representable) floats. -/
def roundHalfEven (q : ℚ) : ℤ :=
  if q - (⌊q⌋ : ℚ) < 1/2 then ⌊q⌋
  else if q - (⌊q⌋ : ℚ) > 1/2 then ⌊q⌋ + 1
  else if ⌊q⌋ % 2 = 0 then ⌊q⌋ else ⌊q⌋ + 1

/-- Python `round(q, 2)`. -/
def pyRound2 (q : ℚ) : ℚ := (roundHalfEven (q * 100) : ℚ) / 100

/-- A daily step record as returned by the Garmin client
(`garmin.get_daily_steps`).  The program reads exactly these four keys,
always via `.get`, so each field is an `Option` (absent key ↦ `none`). -/
structure DailyStepRecord where
  calendarDate : Option String
  totalSteps : Option ℚ
  stepGoal : Option ℚ
  totalDistance : Option ℚ

/-- Python `steps.get(k)` for a numeric field: an absent key yields
`None`. -/
def optNum : Option ℚ → PyVal
  | some q => PyVal.num q
  | Option.none => PyVal.none

/-- Python `steps.get(k)` for a string field. -/
def optStr : Option String → PyVal
  | some s => PyVal.str s
  | Option.none => PyVal.none

/-- The property values of an existing row of the steps table, as
returned by the Notion query: the value found at
`properties['Total Steps']['number']` and so on.  Each is an arbitrary
embedded value, exactly as the program treats them. -/
structure StepsProps where
  totalSteps : PyVal
  stepGoal : PyVal
  totalDistanceKm : PyVal
  activityTitle : PyVal

/-- An existing page of the steps table (`existing_steps` in the
source): its Notion page id and its properties. -/
structure StepsPage where
  id : String
  properties : StepsProps

/-- `steps_need_update(existing_steps, new_steps)`: field-by-field `!=`
comparison of the stored properties against the freshly fetched record.
Note the source compares the stored `'Total Distance (km)'` value against
the raw `new_steps.get('totalDistance')` (metres), and the stored title
value against the plain string `"Walking"`. -/
def steps_need_update (existing_steps : StepsPage) (new_steps : DailyStepRecord) : Bool :=
  let existing_props := existing_steps.properties
  !(PyVal.beq existing_props.totalSteps (optNum new_steps.totalSteps)) ||
  !(PyVal.beq existing_props.stepGoal (optNum new_steps.stepGoal)) ||
  !(PyVal.beq existing_props.totalDistanceKm (optNum new_steps.totalDistance)) ||
  !(PyVal.beq existing_props.activityTitle (PyVal.str "Walking"))

/-- The Notion write payload sent by `client.pages.update(...)`: the
target page id and the properties dict. -/
structure PageUpdate where
  page_id : String
  properties : List (String × PyVal)

/-- The Notion write payload sent by `client.pages.create(...)`: the
parent database id and the properties dict. -/
structure PageCreate where
  database_id : String
  properties : List (String × PyVal)

/-- The rich-text title payload `[{"text": {"content": s}}]`. -/
def titlePayload (s : String) : PyVal :=
  PyVal.list [PyVal.dict [("text", PyVal.dict [("content", PyVal.str s)])]]

/-- `update_daily_steps(client, existing_steps, new_steps)`: the update
issued for an existing steps row.  `total_distance` defaults to 0 when
the record lacks the key, and the stored distance is
`round(total_distance / 1000, 2)`. -/
def update_daily_steps (existing_steps : StepsPage) (new_steps : DailyStepRecord) : PageUpdate :=
  let total_distance := new_steps.totalDistance.getD 0
  { page_id := existing_steps.id
    properties :=
      [("Activity Type", PyVal.dict [("title", titlePayload "Walking")]),
       ("Total Steps", PyVal.dict [("number", optNum new_steps.totalSteps)]),
       ("Step Goal", PyVal.dict [("number", optNum new_steps.stepGoal)]),
       ("Total Distance (km)", PyVal.dict [("number", PyVal.num (pyRound2 (total_distance / 1000)))])] }

/-- `create_daily_steps(client, database_id, steps)`: the create issued
when no steps row exists for the date. -/
def create_daily_steps (database_id : String) (steps : DailyStepRecord) : PageCreate :=
  let total_distance := steps.totalDistance.getD 0
  { database_id := database_id
    properties :=
      [("Activity Type", PyVal.dict [("title", titlePayload "Walking")]),
       ("Date", PyVal.dict [("date", PyVal.dict [("start", optStr steps.calendarDate)])]),
       ("Total Steps", PyVal.dict [("number", optNum steps.totalSteps)]),
       ("Step Goal", PyVal.dict [("number", optNum steps.stepGoal)]),
       ("Total Distance (km)", PyVal.dict [("number", PyVal.num (pyRound2 (total_distance / 1000)))])] }

/-- The steps-table write (if any) chosen by one iteration of `main`'s
loop (`if existing_steps and steps_need_update(...): update / elif not
existing_steps: create / else nothing`). -/
inductive SyncAction where
  | update (u : PageUpdate)
  | create (c : PageCreate)
  | noop

/-- One iteration of the steps-sync branch of `main`'s loop, given the
result of the `daily_steps_exist` lookup. -/
def sync_decision (database_id : String) (existing_steps : Option StepsPage)
    (steps : DailyStepRecord) : SyncAction :=
  match existing_steps with
  | some ex =>
    if steps_need_update ex steps then SyncAction.update (update_daily_steps ex steps)
    else SyncAction.noop
  | Option.none => SyncAction.create (create_daily_steps database_id steps)

/-- Modelled external structured-table client (spec section 6): applying
one property write to a page's property list, overwriting the key if
present and appending it otherwise. -/
def notion_page_set (page : List (String × PyVal)) (k : String) (v : PyVal) :
    List (String × PyVal) :=
  if page.any (fun kv => kv.1 = k) then
    page.map (fun kv => if kv.1 = k then (k, v) else kv)
  else page ++ [(k, v)]

/-- Modelled external structured-table client (spec section 6):
`client.pages.update(page_id, properties)` overwrites exactly the listed
properties and leaves every other property of the page unchanged. -/
def notion_page_update (page : List (String × PyVal)) (props : List (String × PyVal)) :
    List (String × PyVal) :=
  props.foldl (fun pg kv => notion_page_set pg kv.1 kv.2) page

/-- `extract_sleep_metrics(sleep_data)`: normalizes the heterogeneous
sleep payload to a `(sleep_duration, sleep_score)` pair.  The duration is
always a number (seconds divided by 3600); the score is whatever value
the code assigns (raw field value in the list and plain-dict branches, an
`int(...)` result in the `dailySleepDTO` branch, the initial `0`
otherwise).  Places where the Python code can raise (`.get` on a
non-dict, division of a non-number, `int()` of an unparsable value)
return `Except.error`. -/
def extract_sleep_metrics (sleep_data : PyVal) : Except String (ℚ × PyVal) :=
  if !pyTruthy sleep_data then Except.ok (0, PyVal.num 0)
  else
    match sleep_data with
    | PyVal.list (sleep_entry :: _) =>
      match pyGetD sleep_entry "sleepTimeSeconds" (PyVal.num 0) with
      | Except.error e => Except.error e
      | Except.ok st =>
        match pyDiv3600 st with
        | Except.error e => Except.error e
        | Except.ok sleep_duration =>
          match pyGetD sleep_entry "sleepScore" (PyVal.num 0) with
          | Except.error e => Except.error e
          | Except.ok sleep_score => Except.ok (sleep_duration, sleep_score)
    | PyVal.dict entries =>
      match dictFind entries "dailySleepDTO" with
      | some daily_sleep =>
        match daily_sleep with
        | PyVal.dict dl =>
          match pyDiv3600 (dictGetD dl "sleepTimeSeconds" (PyVal.num 0)) with
          | Except.error e => Except.error e
          | Except.ok sleep_duration =>
            match dictFind dl "sleepScores" with
            | some sleep_scores =>
              if pyTruthy sleep_scores then
                match sleep_scores with
                | PyVal.dict ssl =>
                  match (dictFind ssl "overall").getD (PyVal.dict []) with
                  | PyVal.dict ol =>
                    match dictFind ol "value" with
                    | some v =>
                      match pyInt v with
                      | Except.error e => Except.error e
                      | Except.ok n => Except.ok (sleep_duration, PyVal.num n)
                    | Option.none => Except.ok (sleep_duration, PyVal.num 0)
                  | PyVal.num q =>
                    match pyInt (PyVal.num q) with
                    | Except.error e => Except.error e
                    | Except.ok n => Except.ok (sleep_duration, PyVal.num n)
                  | PyVal.bool b =>
                    match pyInt (PyVal.bool b) with
                    | Except.error e => Except.error e
                    | Except.ok n => Except.ok (sleep_duration, PyVal.num n)
                  | PyVal.str s =>
                    match pyInt (PyVal.str s) with
                    | Except.error e => Except.error e
                    | Except.ok n => Except.ok (sleep_duration, PyVal.num n)
                  | _ => Except.ok (sleep_duration, PyVal.num 0)
                | _ => Except.error "AttributeError"
              else Except.ok (sleep_duration, PyVal.num 0)
            | Option.none => Except.ok (sleep_duration, PyVal.num 0)
        | _ => Except.error "AttributeError"
      | Option.none =>
        match pyDiv3600 (dictGetD entries "sleepTimeSeconds" (PyVal.num 0)) with
        | Except.error e => Except.error e
        | Except.ok sleep_duration =>
          Except.ok (sleep_duration, dictGetD entries "sleepScore" (PyVal.num 0))
    | _ => Except.ok (0, PyVal.num 0)

/-- `get_sleep_data(garmin, date, retry_count)` for a fixed date.  The
remote call is the oracle `garmin_fetch`, indexed by the attempt counter.
The result pairs the list of `time.sleep` durations performed (0.5 after
a success, `10 * 2 ** retry_count` after a rate-limited failure) with the
returned payload (`none` embeds Python's `return None`). -/
def get_sleep_data (garmin_fetch : Nat → Except String PyVal) (retry_count : Nat) :
    List ℚ × Option PyVal :=
  match garmin_fetch retry_count with
  | Except.ok sleep_data => ([1/2], some sleep_data)
  | Except.error e =>
    if is_rate_limit e then
      let retry_after : ℚ := 10 * 2 ^ retry_count
      if _h : retry_count < 3 then
        let r := get_sleep_data garmin_fetch (retry_count + 1)
        (retry_after :: r.1, r.2)
      else ([retry_after], Option.none)
    else ([], Option.none)
termination_by 4 - retry_count
decreasing_by omega

/-- The inclusive date range walked by `get_all_daily_steps`:
`startdate = today - 7 days` up to `today`, days embedded as integers. -/
def get_all_daily_steps_range (today : ℤ) : List ℤ :=
  let startdate := today - 7
  (List.range ((today - startdate).toNat + 1)).map (fun (x : ℕ) => startdate + (x : ℤ))

/-- The `for d in daterange` loop body of `get_all_daily_steps`.
`Sum.inl (log, daily_steps)` is a normal exit with the sleep log and the
accumulated records; `Sum.inr log` embeds the early
`return get_all_daily_steps(garmin, retry_count + 1)` taken when a fetch
fails rate-limited while `retry_count < 3` (discarding `daily_steps`).
A rate-limited failure at `retry_count = 3`, or any other failure, skips
the day and continues the loop. -/
def get_all_daily_steps_loop (garmin_fetch : Nat → ℤ → Except String (List PyVal))
    (retry_count : Nat) :
    List ℤ → List PyVal → List ℚ → (List ℚ × List PyVal) ⊕ List ℚ
  | [], daily_steps, log => Sum.inl (log, daily_steps)
  | d :: ds, daily_steps, log =>
    match garmin_fetch retry_count d with
    | Except.ok steps =>
      get_all_daily_steps_loop garmin_fetch retry_count ds (daily_steps ++ steps) (log ++ [1/2])
    | Except.error e =>
      if is_rate_limit e then
        let retry_after : ℚ := 10 * 2 ^ retry_count
        if retry_count < 3 then Sum.inr (log ++ [retry_after])
        else get_all_daily_steps_loop garmin_fetch retry_count ds daily_steps (log ++ [retry_after])
      else get_all_daily_steps_loop garmin_fetch retry_count ds daily_steps log

/-- `get_all_daily_steps(garmin, retry_count)`.  The oracle
`garmin_fetch` gives the outcome of `garmin.get_daily_steps` per attempt
counter and day.  The loop emits `Sum.inr` exactly when a rate-limited
day occurs with `retry_count < 3`, so the `dite` below re-checks the
source's `retry_count < 3` bound (making termination evident); its else
branch is unreachable. -/
def get_all_daily_steps (garmin_fetch : Nat → ℤ → Except String (List PyVal)) (today : ℤ)
    (retry_count : Nat) : List ℚ × List PyVal :=
  match get_all_daily_steps_loop garmin_fetch retry_count (get_all_daily_steps_range today) [] [] with
  | Sum.inl r => r
  | Sum.inr log =>
    if _h : retry_count < 3 then
      let r := get_all_daily_steps garmin_fetch today (retry_count + 1)
      (log ++ r.1, r.2)
    else (log, [])
termination_by 4 - retry_count
decreasing_by omega

/-- A row of the general activity table (`NOTION_DB_ID`) as relevant to
the exercise check: its Date property and its Activity Type select. -/
structure ActivityRow where
  date : String
  activityType : Option String

/-- Modelled external structured-table query (spec section 6) backing the
exercise check: rows whose `Date` equals the given date and whose
`Activity Type` select does not equal `"Walking"` (rows with an empty
select do not match the inequality filter). -/
def activity_query (table : List ActivityRow) (d : String) : List ActivityRow :=
  table.filter (fun r =>
    decide (r.date = d) &&
    match r.activityType with
    | some c => decide (c ≠ "Walking")
    | Option.none => false)

/-- An existing row of the wellness table, as returned by the
existing-entry query (only its page id is used). -/
structure WellnessRow where
  id : String

/-- The `wellness_properties` payload: the date plus the three goal
checkboxes. -/
def wellness_properties (steps_date : Option String)
    (steps_goal_met sleep_goal_met exercise_logged : Bool) : List (String × PyVal) :=
  [("Date", PyVal.dict [("date", PyVal.dict [("start", optStr steps_date)])]),
   ("15000 Steps", PyVal.dict [("checkbox", PyVal.bool steps_goal_met)]),
   ("😴7+ hrs Sleep, 85+ Score", PyVal.dict [("checkbox", PyVal.bool sleep_goal_met)]),
   ("🏃🏾‍♂️ Excersice", PyVal.dict [("checkbox", PyVal.bool exercise_logged)])]

/-- A wellness-table write: `isUpdate = true` targets an existing page
id, `isUpdate = false` creates inside the wellness database id. -/
structure WellnessWrite where
  isUpdate : Bool
  target : String
  props : List (String × PyVal)

/-- The outcome of one `update_wellness_database` call that did not
raise: skipped (no database id configured), a write that went through,
or a write whose exception was caught and logged by the function's
`try`/`except`. -/
inductive WellnessOutcome where
  | skipped
  | wrote (w : WellnessWrite)
  | writeFailed (w : WellnessWrite) (e : String)

/-- `update_wellness_database(client, wellness_database_id, steps,
garmin)`.  Remote outcomes are oracle arguments: `garmin_fetch` backs the
per-date `get_sleep_data` call, `exercise_query_result` the activity
query, `existing_query_result` the existing-entry query, and
`write_result` the final `pages.update`/`pages.create`.  Only the final
write sits inside the source's `try`/`except`; an exception anywhere
else (including either query) propagates as `Except.error`. -/
def update_wellness_database (wellness_database_id : Option String)
    (steps : DailyStepRecord) (garmin_fetch : Nat → Except String PyVal)
    (exercise_query_result : Except String (List ActivityRow))
    (existing_query_result : Except String (List WellnessRow))
    (write_result : Except String Unit) : Except String WellnessOutcome :=
  match wellness_database_id with
  | Option.none => Except.ok WellnessOutcome.skipped
  | some wdb =>
    if wdb = "" then Except.ok WellnessOutcome.skipped
    else
      let steps_date := steps.calendarDate
      let total_steps := steps.totalSteps.getD 0
      let step_goal := steps.stepGoal.getD 10000
      let sleep_data := (get_sleep_data garmin_fetch 0).2
      match extract_sleep_metrics (sleep_data.getD PyVal.none) with
      | Except.error e => Except.error e
      | Except.ok (sleep_duration, sleep_score) =>
        let steps_goal_met : Bool := decide (total_steps ≥ step_goal)
        match (if sleep_duration ≥ (7 : ℚ) then pyGeNum sleep_score 85 else Except.ok false) with
        | Except.error e => Except.error e
        | Except.ok sleep_goal_met =>
          match exercise_query_result with
          | Except.error e => Except.error e
          | Except.ok exercise_activities =>
            let exercise_logged : Bool := decide (exercise_activities.length > 0)
            match existing_query_result with
            | Except.error e => Except.error e
            | Except.ok existing_entry =>
              let props := wellness_properties steps_date steps_goal_met sleep_goal_met exercise_logged
              match existing_entry with
              | entry :: _ =>
                match write_result with
                | Except.ok _ => Except.ok (WellnessOutcome.wrote ⟨true, entry.id, props⟩)
                | Except.error e => Except.ok (WellnessOutcome.writeFailed ⟨true, entry.id, props⟩ e)
              | [] =>
                match write_result with
                | Except.ok _ => Except.ok (WellnessOutcome.wrote ⟨false, wdb, props⟩)
                | Except.error e => Except.ok (WellnessOutcome.writeFailed ⟨false, wdb, props⟩ e)

/-- The login section of `main`.  `garmin_login` gives the outcome of
`garmin.login()` per attempt (0 = first attempt, 1 = the retry taken
after a 10 second wait when the first failure is rate-limited);
`processing` stands for everything `main` does after a successful login
(the steps collection and the per-record table writes).  `none` embeds
the early `return`: no processing at all happens.  The fixed 10 second
wait before the retry is a timing effect elided here. -/
def main (garmin_login : Nat → Except String Unit) (processing : List SyncAction) :
    Option (List SyncAction) :=
  match garmin_login 0 with
  | Except.ok _ => some processing
  | Except.error e =>
    if is_rate_limit e then
      match garmin_login 1 with
      | Except.ok _ => some processing
      | Except.error _ => Option.none
    else Option.none

/-- Whether Python division of this value by a number succeeds (numbers
and bools do; anything else raises `TypeError`). -/
def pyDivOk : PyVal → Bool
  | PyVal.num _ => true
  | PyVal.bool _ => true
  | _ => false

/-- Whether Python `int(v)` succeeds on this value. -/
def pyIntOk : PyVal → Bool
  | PyVal.num _ => true
  | PyVal.bool _ => true
  | PyVal.str s => (pyIntOfStr s).isSome
  | _ => false

/-- Well-typedness of a sleep payload: every field the extractor touches
on the taken branch has a type its Python operation accepts
(`sleepTimeSeconds` numeric where read, a dict-shaped `dailySleepDTO`
and truthy `sleepScores`, and an `int()`-convertible overall score).
This is the condition the C4 amendment adds. -/
def sleep_payload_well_typed : PyVal → Bool
  | PyVal.list (sleep_entry :: _) =>
    (match sleep_entry with
     | PyVal.dict l => pyDivOk (dictGetD l "sleepTimeSeconds" (PyVal.num 0))
     | _ => false)
  | PyVal.dict entries =>
    (match dictFind entries "dailySleepDTO" with
     | some (PyVal.dict dl) =>
       pyDivOk (dictGetD dl "sleepTimeSeconds" (PyVal.num 0)) &&
       (match dictFind dl "sleepScores" with
        | some ss =>
          !pyTruthy ss ||
          (match ss with
           | PyVal.dict ssl =>
             (match (dictFind ssl "overall").getD (PyVal.dict []) with
              | PyVal.dict ol =>
                (match dictFind ol "value" with
                 | some v => pyIntOk v
                 | Option.none => true)
              | PyVal.num _ => true
              | PyVal.bool _ => true
              | PyVal.str s => (pyIntOfStr s).isSome
              | _ => true)
           | _ => false)
        | Option.none => true)
     | some _ => false
     | Option.none => pyDivOk (dictGetD entries "sleepTimeSeconds" (PyVal.num 0)))
  | _ => true

/-- The C1 failing record: 1000 steps against a 10000 goal, with a
total distance of 1000 metres. -/
def c1_record : DailyStepRecord :=
  { calendarDate := some "2024-01-05", totalSteps := some 1000,
    stepGoal := some 10000, totalDistance := some 1000 }

/-- The C1 stored row: exactly the values a previous sync of `c1_record`
stores — distance `round(1000 / 1000, 2) = 1.0` km — with the category
label read back as the plain string "Walking" (the reading most
favourable to the claim). -/
def c1_row : StepsPage :=
  { id := "steps-page-1",
    properties :=
      { totalSteps := PyVal.num 1000, stepGoal := PyVal.num 10000,
        totalDistanceKm := PyVal.num 1, activityTitle := PyVal.str "Walking" } }

/-- The C4 counterexample input: a sequence-shaped payload whose
`sleepTimeSeconds` is a string. -/
def c4_bad_input : PyVal := PyVal.list [PyVal.dict [("sleepTimeSeconds", PyVal.str "soon")]]

/-- A well-typed plain-object sleep payload, used to witness the C4
amendment. -/
def c4_good_input : PyVal := PyVal.dict [("sleepTimeSeconds", PyVal.num 25200)]

/-- The single step record fetched on the first day of the C6
counterexample run. -/
def c6_day0_record : PyVal :=
  PyVal.dict [("calendarDate", PyVal.str "2024-01-01"), ("totalSteps", PyVal.num 5000)]

/-- The C6 counterexample fetch oracle: on the first pass the first day
succeeds and the second day hits the rate limit; every later pass fails
with a non-rate-limit error. -/
def c6_fetch : Nat → ℤ → Except String (List PyVal)
  | 0, d => if d = -7 then Except.ok [c6_day0_record] else Except.error "429 Too Many Requests"
  | _, _ => Except.error "connection reset"

/-- The C7 witness record: 15000 steps against a 10000 goal. -/
def c7_steps : DailyStepRecord :=
  { calendarDate := some "2024-01-05", totalSteps := some 15000,
    stepGoal := some 10000, totalDistance := some 0 }

/-- The C7 witness sleep oracle: 6.5 hours (23400 s) with score 90. -/
def c7_sleep_fetch : Nat → Except String PyVal := fun _ =>
  Except.ok (PyVal.dict [("sleepTimeSeconds", PyVal.num 23400), ("sleepScore", PyVal.num 90)])

/-- The C7 witness activity table: one non-Walking activity on the
date. -/
def c7_activity_table : List ActivityRow := [⟨"2024-01-05", some "Running"⟩]

/-- A plain record used by the C8 scenarios. -/
def c8_steps : DailyStepRecord :=
  { calendarDate := some "2024-01-06", totalSteps := some 8000,
    stepGoal := some 10000, totalDistance := some 0 }

/-- `dictFind` distributes over list append, first list first. -/
theorem dictFind_append (l1 l2 : List (String × PyVal)) (k : String) :
    dictFind (l1 ++ l2) k =
      match dictFind l1 k with
      | some v => some v
      | Option.none => dictFind l2 k := by
  induction l1 with
  | nil => rfl
  | cons kv rest ih =>
    obtain ⟨k1, v⟩ := kv
    by_cases h : k1 = k <;> simp [dictFind, h, ih]

/-- Unfolding lemma: `dictFind` on a cons cell. -/
theorem dictFind_cons (k1 : String) (v : PyVal) (l : List (String × PyVal)) (k : String) :
    dictFind ((k1, v) :: l) k = if k1 = k then some v else dictFind l k := rfl

/-- Overwriting key `k` in place leaves lookups of other keys
unchanged. -/
theorem dictFind_map_set_ne (page : List (String × PyVal)) (k k' : String) (v : PyVal)
    (h : k' ≠ k) :
    dictFind (page.map (fun kv => if kv.1 = k then (k, v) else kv)) k' = dictFind page k' := by
  induction page with
  | nil => rfl
  | cons kv rest ih =>
    obtain ⟨k1, v1⟩ := kv
    have hk : ¬ (k = k') := fun hh => h hh.symm
    have hk2 : ¬ (k' = k) := h
    simp only [List.map_cons]
    by_cases h1 : k1 = k
    · subst h1
      simp [dictFind_cons, hk, ih]
    · by_cases h2 : k1 = k' <;> simp [dictFind_cons, h1, h2, hk2, ih]

/-- `notion_page_set` of key `k` leaves lookups of other keys
unchanged. -/
theorem dictFind_notion_page_set_ne (page : List (String × PyVal)) (k k' : String) (v : PyVal)
    (h : k' ≠ k) : dictFind (notion_page_set page k v) k' = dictFind page k' := by
  unfold notion_page_set
  split
  · exact dictFind_map_set_ne page k k' v h
  · rw [dictFind_append]
    have hk : ¬ (k = k') := fun hh => h hh.symm
    cases hf : dictFind page k' <;> simp [hf, dictFind, hk]

/-- A modelled Notion page update whose payload does not list key `k'`
leaves the page's `k'` property unchanged. -/
theorem dictFind_notion_page_update_ne (props : List (String × PyVal))
    (page : List (String × PyVal)) (k' : String) (h : ∀ kv ∈ props, kv.1 ≠ k') :
    dictFind (notion_page_update page props) k' = dictFind page k' := by
  induction props generalizing page with
  | nil => rfl
  | cons kv rest ih =>
    have h1 : kv.1 ≠ k' := h kv (List.mem_cons_self _ _)
    have h2 : ∀ kv2 ∈ rest, kv2.1 ≠ k' := fun kv2 hm => h kv2 (List.mem_cons_of_mem _ hm)
    calc dictFind (notion_page_update page (kv :: rest)) k'
        = dictFind (notion_page_update (notion_page_set page kv.1 kv.2) rest) k' := rfl
      _ = dictFind (notion_page_set page kv.1 kv.2) k' := ih (notion_page_set page kv.1 kv.2) h2
      _ = dictFind page k' := dictFind_notion_page_set_ne page kv.1 k' kv.2 (Ne.symm h1)

/-- C1 (code bug): the stored row `c1_row` matches `c1_record` on
totalSteps, stepGoal, rounded distance and category label — its distance
cell holds exactly the rounded kilometres an earlier sync wrote — yet
`steps_need_update` answers `true` and the main-loop branch issues an
update: the code compares the stored kilometres (1.0) against the raw
metres (1000), so the claimed no-op never happens. -/
theorem c1_matching_row_still_updated :
    c1_row.properties.totalDistanceKm =
      PyVal.num (pyRound2 ((c1_record.totalDistance.getD 0) / 1000)) ∧
    steps_need_update c1_row c1_record = true ∧
    sync_decision "steps-db" (some c1_row) c1_record =
      SyncAction.update (update_daily_steps c1_row c1_record) := by
  refine ⟨?_, rfl, rfl⟩
  show PyVal.num 1 = PyVal.num (pyRound2 ((1000 : ℚ) / 1000))
  have h1 : ((1000 : ℚ) / 1000) = 1 := by norm_num
  rw [h1]
  norm_num [pyRound2, roundHalfEven]

/-- C2: the distance value written to the steps table, by update and by
create alike, is `round(totalDistance / 1000, 2)` with a missing
distance field treated as 0; both payloads derive it from the record by
this one formula. -/
theorem c2_distance_written (existing_steps : StepsPage) (database_id : String)
    (r : DailyStepRecord) :
    dictFind (update_daily_steps existing_steps r).properties "Total Distance (km)" =
      some (PyVal.dict [("number", PyVal.num (pyRound2 ((r.totalDistance.getD 0) / 1000)))]) ∧
    dictFind (create_daily_steps database_id r).properties "Total Distance (km)" =
      some (PyVal.dict [("number", PyVal.num (pyRound2 ((r.totalDistance.getD 0) / 1000)))]) :=
  ⟨rfl, rfl⟩

/-- C3: the sleep-metrics extractor satisfies the four reference cases:
`None` and `[]` give `(0, 0)`; a one-entry list with 25200 seconds and
score 90 gives `(7.0, 90)`; a `dailySleepDTO` object with 27000 seconds
and overall value `"88"` gives `(7.5, 88)`. -/
theorem c3_extract_sleep_metrics_reference_cases :
    extract_sleep_metrics PyVal.none = Except.ok (0, PyVal.num 0) ∧
    extract_sleep_metrics (PyVal.list []) = Except.ok (0, PyVal.num 0) ∧
    extract_sleep_metrics (PyVal.list [PyVal.dict
      [("sleepTimeSeconds", PyVal.num 25200), ("sleepScore", PyVal.num 90)]]) =
      Except.ok (7, PyVal.num 90) ∧
    extract_sleep_metrics (PyVal.dict [("dailySleepDTO", PyVal.dict
      [("sleepTimeSeconds", PyVal.num 27000),
       ("sleepScores", PyVal.dict [("overall", PyVal.dict [("value", PyVal.str "88")])])])]) =
      Except.ok (15/2, PyVal.num 88) := by
  refine ⟨rfl, rfl, ?_, ?_⟩
  · show Except.ok ((25200 : ℚ) / 3600, PyVal.num 90) = Except.ok (7, PyVal.num 90)
    norm_num
  · show Except.ok ((27000 : ℚ) / 3600, PyVal.num ((88 : ℤ) : ℚ)) =
      Except.ok (15/2, PyVal.num 88)
    norm_num

/-- C4 (counterexample): on a sequence-shaped input whose
`sleepTimeSeconds` field is a string, the extractor raises (`TypeError`
from dividing a string by 3600) instead of returning a pair. -/
theorem c4_counterexample : extract_sleep_metrics c4_bad_input = Except.error "TypeError" := rfl

/-- C10: an update payload lists exactly Activity Type, Total Steps,
Step Goal and Total Distance (km); Date is not among them, so under the
modelled Notion update semantics the Date property of the updated row is
unchanged. -/
theorem c10_update_preserves_date (existing_steps : StepsPage) (new_steps : DailyStepRecord)
    (page : List (String × PyVal)) :
    (update_daily_steps existing_steps new_steps).properties.map Prod.fst =
      ["Activity Type", "Total Steps", "Step Goal", "Total Distance (km)"] ∧
    dictFind (notion_page_update page (update_daily_steps existing_steps new_steps).properties)
      "Date" = dictFind page "Date" := by
  refine ⟨rfl, ?_⟩
  apply dictFind_notion_page_update_ne
  intro kv hm hEq
  have h58 : kv.1 ∈ (update_daily_steps existing_steps new_steps).properties.map Prod.fst :=
    List.mem_map_of_mem Prod.fst hm
  rw [hEq] at h58
  have h59 : (update_daily_steps existing_steps new_steps).properties.map Prod.fst =
      ["Activity Type", "Total Steps", "Step Goal", "Total Distance (km)"] := rfl
  rw [h59] at h58
  exact absurd h58 (by decide)

/-- Reduction of the extractor on a non-empty list whose head is a
dict. -/
theorem extract_list_dict (l1 : List (String × PyVal)) (es : List PyVal) :
    extract_sleep_metrics (PyVal.list (PyVal.dict l1 :: es)) =
      match pyDiv3600 (dictGetD l1 "sleepTimeSeconds" (PyVal.num 0)) with
      | Except.error e => Except.error e
      | Except.ok sleep_duration =>
        Except.ok (sleep_duration, dictGetD l1 "sleepScore" (PyVal.num 0)) := rfl

/-- Reduction of the extractor on a dict without a `dailySleepDTO`
key. -/
theorem extract_plain_dict (entries : List (String × PyVal))
    (hds : dictFind entries "dailySleepDTO" = Option.none) :
    extract_sleep_metrics (PyVal.dict entries) =
      match pyDiv3600 (dictGetD entries "sleepTimeSeconds" (PyVal.num 0)) with
      | Except.error e => Except.error e
      | Except.ok sleep_duration =>
        Except.ok (sleep_duration, dictGetD entries "sleepScore" (PyVal.num 0)) := by
  cases entries with
  | nil => norm_num [extract_sleep_metrics, pyDiv3600, dictGetD, dictFind]
  | cons kv rest =>
    simp only [extract_sleep_metrics, pyTruthy, List.isEmpty_cons, Bool.not_false, Bool.not_true,
      if_false, hds]
    rw [if_neg Bool.false_ne_true]

/-- Reduction of the extractor on a dict whose `dailySleepDTO` value is
itself a dict. -/
theorem extract_dto_dict (entries dl : List (String × PyVal))
    (hds : dictFind entries "dailySleepDTO" = some (PyVal.dict dl)) :
    extract_sleep_metrics (PyVal.dict entries) =
      match pyDiv3600 (dictGetD dl "sleepTimeSeconds" (PyVal.num 0)) with
      | Except.error e => Except.error e
      | Except.ok sleep_duration =>
        match dictFind dl "sleepScores" with
        | some sleep_scores =>
          if pyTruthy sleep_scores then
            match sleep_scores with
            | PyVal.dict ssl =>
              match (dictFind ssl "overall").getD (PyVal.dict []) with
              | PyVal.dict ol =>
                match dictFind ol "value" with
                | some v =>
                  match pyInt v with
                  | Except.error e => Except.error e
                  | Except.ok n => Except.ok (sleep_duration, PyVal.num n)
                | Option.none => Except.ok (sleep_duration, PyVal.num 0)
              | PyVal.num q =>
                match pyInt (PyVal.num q) with
                | Except.error e => Except.error e
                | Except.ok n => Except.ok (sleep_duration, PyVal.num n)
              | PyVal.bool b =>
                match pyInt (PyVal.bool b) with
                | Except.error e => Except.error e
                | Except.ok n => Except.ok (sleep_duration, PyVal.num n)
              | PyVal.str s =>
                match pyInt (PyVal.str s) with
                | Except.error e => Except.error e
                | Except.ok n => Except.ok (sleep_duration, PyVal.num n)
              | _ => Except.ok (sleep_duration, PyVal.num 0)
            | _ => Except.error "AttributeError"
          else Except.ok (sleep_duration, PyVal.num 0)
        | Option.none => Except.ok (sleep_duration, PyVal.num 0) := by
  cases entries with
  | nil => simp [dictFind] at hds
  | cons kv rest =>
    simp only [extract_sleep_metrics, pyTruthy, List.isEmpty_cons, Bool.not_false, Bool.not_true,
      if_false, hds]
    rw [if_neg Bool.false_ne_true]

/-- C4 (amended): for every input of the three supported shapes whose
relevant fields are well-typed in the sense of
`sleep_payload_well_typed`, the extractor returns a `(duration, score)`
pair without raising. -/
theorem c4_amended_well_typed_no_raise (v : PyVal)
    (h : sleep_payload_well_typed v = true) :
    ∃ p, extract_sleep_metrics v = Except.ok p := by
  cases v with
  | none => exact ⟨_, rfl⟩
  | bool b =>
    unfold extract_sleep_metrics
    split
    · exact ⟨_, rfl⟩
    · exact ⟨_, rfl⟩
  | num q =>
    unfold extract_sleep_metrics
    split
    · exact ⟨_, rfl⟩
    · exact ⟨_, rfl⟩
  | str s =>
    unfold extract_sleep_metrics
    split
    · exact ⟨_, rfl⟩
    · exact ⟨_, rfl⟩
  | list l =>
    cases l with
    | nil => exact ⟨_, rfl⟩
    | cons e es =>
      cases e with
      | dict l1 =>
        have hd : pyDivOk (dictGetD l1 "sleepTimeSeconds" (PyVal.num 0)) = true := by
          simpa [sleep_payload_well_typed] using h
        rw [extract_list_dict]
        cases hst : dictGetD l1 "sleepTimeSeconds" (PyVal.num 0) with
        | num q => exact ⟨_, rfl⟩
        | bool b => exact ⟨_, rfl⟩
        | none => rw [hst] at hd; simp [pyDivOk] at hd
        | str s => rw [hst] at hd; simp [pyDivOk] at hd
        | list l2 => rw [hst] at hd; simp [pyDivOk] at hd
        | dict l2 => rw [hst] at hd; simp [pyDivOk] at hd
      | none => simp [sleep_payload_well_typed] at h
      | bool b => simp [sleep_payload_well_typed] at h
      | num q => simp [sleep_payload_well_typed] at h
      | str s => simp [sleep_payload_well_typed] at h
      | list l2 => simp [sleep_payload_well_typed] at h
  | dict entries =>
    cases hds : dictFind entries "dailySleepDTO" with
    | none =>
      have hd : pyDivOk (dictGetD entries "sleepTimeSeconds" (PyVal.num 0)) = true := by
        simpa [sleep_payload_well_typed, hds] using h
      rw [extract_plain_dict entries hds]
      cases hst : dictGetD entries "sleepTimeSeconds" (PyVal.num 0) with
      | num q => exact ⟨_, rfl⟩
      | bool b => exact ⟨_, rfl⟩
      | none => rw [hst] at hd; simp [pyDivOk] at hd
      | str s => rw [hst] at hd; simp [pyDivOk] at hd
      | list l2 => rw [hst] at hd; simp [pyDivOk] at hd
      | dict l2 => rw [hst] at hd; simp [pyDivOk] at hd
    | some ds =>
      cases ds with
      | dict dl =>
        rw [sleep_payload_well_typed] at h
        rw [hds] at h
        rw [Bool.and_eq_true] at h
        obtain ⟨hd, hsc⟩ := h
        rw [extract_dto_dict entries dl hds]
        cases hst : dictGetD dl "sleepTimeSeconds" (PyVal.num 0) with
        | num q => ?_
        | bool b => ?_
        | none => rw [hst] at hd; simp [pyDivOk] at hd
        | str s => rw [hst] at hd; simp [pyDivOk] at hd
        | list l2 => rw [hst] at hd; simp [pyDivOk] at hd
        | dict l2 => rw [hst] at hd; simp [pyDivOk] at hd
        all_goals {
          simp only [pyDiv3600]
          cases hss : dictFind dl "sleepScores" with
          | none => exact ⟨_, rfl⟩
          | some ss =>
            rw [hss] at hsc
            by_cases ht : pyTruthy ss = true
            · simp only [ht, if_true]
              simp only [ht, Bool.not_true, Bool.false_or] at hsc
              cases ss with
              | dict ssl =>
                dsimp only at hsc ⊢
                cases hov : (dictFind ssl "overall").getD (PyVal.dict []) with
                | dict ol =>
                  rw [hov] at hsc
                  dsimp only at hsc ⊢
                  cases hv : dictFind ol "value" with
                  | none => exact ⟨_, rfl⟩
                  | some v =>
                    rw [hv] at hsc
                    dsimp only at hsc ⊢
                    cases v with
                    | num q3 => exact ⟨_, rfl⟩
                    | bool b3 => exact ⟨_, rfl⟩
                    | str s3 =>
                      simp only [pyIntOk] at hsc
                      simp only [pyInt]
                      cases hpi : pyIntOfStr s3 with
                      | none => rw [hpi] at hsc; simp at hsc
                      | some n => exact ⟨_, rfl⟩
                    | none => simp [pyIntOk] at hsc
                    | list l4 => simp [pyIntOk] at hsc
                    | dict l5 => simp [pyIntOk] at hsc
                | num q2 => exact ⟨_, rfl⟩
                | bool b2 => exact ⟨_, rfl⟩
                | str s2 =>
                  rw [hov] at hsc
                  dsimp only at hsc ⊢
                  simp only [pyInt]
                  cases hpi : pyIntOfStr s2 with
                  | none => rw [hpi] at hsc; simp at hsc
                  | some n => exact ⟨_, rfl⟩
                | none => exact ⟨_, rfl⟩
                | list l3 => exact ⟨_, rfl⟩
              | none => simp at hsc
              | bool b2 => simp at hsc
              | num q2 => simp at hsc
              | str s2 => simp at hsc
              | list l3 => simp at hsc
            · simp only [ht, if_false]
              exact ⟨_, rfl⟩
        }
      | none => simp [sleep_payload_well_typed, hds] at h
      | bool b => simp [sleep_payload_well_typed, hds] at h
      | num q => simp [sleep_payload_well_typed, hds] at h
      | str s => simp [sleep_payload_well_typed, hds] at h
      | list l2 => simp [sleep_payload_well_typed, hds] at h

/-- C4 (witness): the amended theorem applied to a concrete well-typed
plain-object payload. -/
theorem c4_amended_witness :
    sleep_payload_well_typed c4_good_input = true ∧
    ∃ p, extract_sleep_metrics c4_good_input = Except.ok p :=
  ⟨rfl, c4_amended_well_typed_no_raise c4_good_input rfl⟩

/-- `get_sleep_data` on a successful fetch: pause 0.5 s and return the
payload. -/
theorem get_sleep_data_success (garmin_fetch : Nat → Except String PyVal) (rc : Nat) (v : PyVal)
    (hf : garmin_fetch rc = Except.ok v) :
    get_sleep_data garmin_fetch rc = ([1/2], some v) := by
  rw [get_sleep_data, hf]

/-- `get_sleep_data` on a non-rate-limit failure: return `None` with no
backoff wait. -/
theorem get_sleep_data_other_error (garmin_fetch : Nat → Except String PyVal) (rc : Nat)
    (e : String) (hf : garmin_fetch rc = Except.error e) (hrl : is_rate_limit e = false) :
    get_sleep_data garmin_fetch rc = ([], Option.none) := by
  rw [get_sleep_data, hf]
  simp [hrl]

/-- `get_sleep_data` on a rate-limited failure with retries left: wait
`10 * 2 ^ rc` seconds and recurse. -/
theorem get_sleep_data_rl_step (garmin_fetch : Nat → Except String PyVal) (rc : Nat) (e : String)
    (hf : garmin_fetch rc = Except.error e) (hrl : is_rate_limit e = true) (hlt : rc < 3) :
    get_sleep_data garmin_fetch rc =
      (10 * 2 ^ rc :: (get_sleep_data garmin_fetch (rc + 1)).1,
       (get_sleep_data garmin_fetch (rc + 1)).2) := by
  rw [get_sleep_data, hf]
  simp [hrl, hlt]

/-- `get_sleep_data` on a rate-limited failure with the retry budget
exhausted (counter 3): wait 80 s and return `None`. -/
theorem get_sleep_data_rl_exhausted (garmin_fetch : Nat → Except String PyVal) (e : String)
    (hf : garmin_fetch 3 = Except.error e) (hrl : is_rate_limit e = true) :
    get_sleep_data garmin_fetch 3 = ([80], Option.none) := by
  rw [get_sleep_data, hf]
  norm_num [hrl]

/-- The steps loop on an empty day list returns the log and the
accumulated records. -/
theorem steps_loop_nil (garmin_fetch : Nat → ℤ → Except String (List PyVal)) (rc : Nat)
    (acc : List PyVal) (log : List ℚ) :
    get_all_daily_steps_loop garmin_fetch rc [] acc log = Sum.inl (log, acc) := rfl

/-- The steps loop on a successful day: append the records, pause
0.5 s, continue. -/
theorem steps_loop_ok (garmin_fetch : Nat → ℤ → Except String (List PyVal)) (rc : Nat) (d : ℤ)
    (ds : List ℤ) (acc : List PyVal) (log : List ℚ) (steps : List PyVal)
    (hf : garmin_fetch rc d = Except.ok steps) :
    get_all_daily_steps_loop garmin_fetch rc (d :: ds) acc log =
      get_all_daily_steps_loop garmin_fetch rc ds (acc ++ steps) (log ++ [1/2]) := by
  simp only [get_all_daily_steps_loop, hf]

/-- The steps loop on a day failing with a non-rate-limit error: skip
the day, keep the accumulated records, continue. -/
theorem steps_loop_other_error (garmin_fetch : Nat → ℤ → Except String (List PyVal)) (rc : Nat)
    (d : ℤ) (ds : List ℤ) (acc : List PyVal) (log : List ℚ) (e : String)
    (hf : garmin_fetch rc d = Except.error e) (hrl : is_rate_limit e = false) :
    get_all_daily_steps_loop garmin_fetch rc (d :: ds) acc log =
      get_all_daily_steps_loop garmin_fetch rc ds acc log := by
  simp only [get_all_daily_steps_loop, hf, hrl]
  simp

/-- The steps loop on a rate-limited day with retries left: abandon the
pass (and the records accumulated in it), logging the backoff wait. -/
theorem steps_loop_rl_restart (garmin_fetch : Nat → ℤ → Except String (List PyVal)) (rc : Nat)
    (d : ℤ) (ds : List ℤ) (acc : List PyVal) (log : List ℚ) (e : String)
    (hf : garmin_fetch rc d = Except.error e) (hrl : is_rate_limit e = true) (hlt : rc < 3) :
    get_all_daily_steps_loop garmin_fetch rc (d :: ds) acc log =
      Sum.inr (log ++ [10 * 2 ^ rc]) := by
  simp only [get_all_daily_steps_loop, hf, hrl]
  simp [hlt]

/-- The steps loop on a rate-limited day with the retry budget exhausted
(counter 3): wait 80 s, skip the day, continue the loop. -/
theorem steps_loop_rl_exhausted (garmin_fetch : Nat → ℤ → Except String (List PyVal)) (d : ℤ)
    (ds : List ℤ) (acc : List PyVal) (log : List ℚ) (e : String)
    (hf : garmin_fetch 3 d = Except.error e) (hrl : is_rate_limit e = true) :
    get_all_daily_steps_loop garmin_fetch 3 (d :: ds) acc log =
      get_all_daily_steps_loop garmin_fetch 3 ds acc (log ++ [80]) := by
  simp only [get_all_daily_steps_loop, hf, hrl]
  norm_num

/-- `get_all_daily_steps` when the pass runs to completion. -/
theorem get_all_daily_steps_of_inl (garmin_fetch : Nat → ℤ → Except String (List PyVal))
    (today : ℤ) (rc : Nat) (r : List ℚ × List PyVal)
    (h : get_all_daily_steps_loop garmin_fetch rc (get_all_daily_steps_range today) [] [] =
      Sum.inl r) :
    get_all_daily_steps garmin_fetch today rc = r := by
  rw [get_all_daily_steps, h]

/-- `get_all_daily_steps` when the pass aborts on a rate limit with
retries left: the outcome is entirely that of the restarted pass — the
current pass's accumulated records do not appear in it. -/
theorem get_all_daily_steps_of_inr (garmin_fetch : Nat → ℤ → Except String (List PyVal))
    (today : ℤ) (rc : Nat) (log : List ℚ)
    (h : get_all_daily_steps_loop garmin_fetch rc (get_all_daily_steps_range today) [] [] =
      Sum.inr log) (hlt : rc < 3) :
    get_all_daily_steps garmin_fetch today rc =
      (log ++ (get_all_daily_steps garmin_fetch today (rc + 1)).1,
       (get_all_daily_steps garmin_fetch today (rc + 1)).2) := by
  rw [get_all_daily_steps, h]
  simp [hlt]

/-- The walked date range is the 8 consecutive days ending today, in
ascending order. -/
theorem get_all_daily_steps_range_eq (today : ℤ) :
    get_all_daily_steps_range today =
      [today - 7, today - 6, today - 5, today - 4, today - 3, today - 2, today - 1, today] := by
  simp only [get_all_daily_steps_range]
  have h7 : (today - (today - 7)).toNat = 7 := by omega
  rw [h7]
  have h8 : List.range (7 + 1) = [0, 1, 2, 3, 4, 5, 6, 7] := rfl
  rw [h8]
  simp only [List.map_cons, List.map_nil, List.cons.injEq, and_true]
  omega

/-- C5: when the wrapped remote fetch fails rate-limited on every
attempt, the backoff waits for attempt counters 0..3 are 10, 20, 40 and
80 seconds, and after the fourth failed attempt the function returns a
degraded result instead of raising: `None` for the sleep fetch, the
accumulated (here empty) list for the steps fetch.  (At counter 3 the
steps loop additionally waits 80 s for each remaining day of the
pass.) -/
theorem c5_backoff_schedule_and_degraded_result (garmin_sleep : Nat → Except String PyVal)
    (garmin_steps : Nat → ℤ → Except String (List PyVal)) (today : ℤ)
    (hSl : ∀ n, ∃ e, garmin_sleep n = Except.error e ∧ is_rate_limit e = true)
    (hSt : ∀ n d, ∃ e, garmin_steps n d = Except.error e ∧ is_rate_limit e = true) :
    get_sleep_data garmin_sleep 0 = ([10, 20, 40, 80], Option.none) ∧
    get_all_daily_steps garmin_steps today 0 =
      ([10, 20, 40, 80, 80, 80, 80, 80, 80, 80, 80], []) := by
  constructor
  · obtain ⟨e0, hf0, hr0⟩ := hSl 0
    obtain ⟨e1, hf1, hr1⟩ := hSl 1
    obtain ⟨e2, hf2, hr2⟩ := hSl 2
    obtain ⟨e3, hf3, hr3⟩ := hSl 3
    rw [get_sleep_data_rl_step garmin_sleep 0 e0 hf0 hr0 (by norm_num),
        get_sleep_data_rl_step garmin_sleep 1 e1 hf1 hr1 (by norm_num),
        get_sleep_data_rl_step garmin_sleep 2 e2 hf2 hr2 (by norm_num),
        get_sleep_data_rl_exhausted garmin_sleep e3 hf3 hr3]
    norm_num
  · have hrestart : ∀ rc : Nat, rc < 3 →
        get_all_daily_steps_loop garmin_steps rc (get_all_daily_steps_range today) [] [] =
          Sum.inr [10 * 2 ^ rc] := by
      intro rc hlt
      obtain ⟨e, he, hre⟩ := hSt rc (today - 7)
      rw [get_all_daily_steps_range_eq,
          steps_loop_rl_restart garmin_steps rc (today - 7) _ _ _ e he hre hlt]
      norm_num
    have hpass3 :
        get_all_daily_steps_loop garmin_steps 3 (get_all_daily_steps_range today) [] [] =
          Sum.inl ([80, 80, 80, 80, 80, 80, 80, 80], []) := by
      obtain ⟨e0, h0, r0⟩ := hSt 3 (today - 7)
      obtain ⟨e1, h1, r1⟩ := hSt 3 (today - 6)
      obtain ⟨e2, h2, r2⟩ := hSt 3 (today - 5)
      obtain ⟨e3, h3, r3⟩ := hSt 3 (today - 4)
      obtain ⟨e4, h4, r4⟩ := hSt 3 (today - 3)
      obtain ⟨e5, h5, r5⟩ := hSt 3 (today - 2)
      obtain ⟨e6, h6, r6⟩ := hSt 3 (today - 1)
      obtain ⟨e7, h7, r7⟩ := hSt 3 today
      rw [get_all_daily_steps_range_eq,
          steps_loop_rl_exhausted garmin_steps (today - 7) _ _ _ e0 h0 r0,
          steps_loop_rl_exhausted garmin_steps (today - 6) _ _ _ e1 h1 r1,
          steps_loop_rl_exhausted garmin_steps (today - 5) _ _ _ e2 h2 r2,
          steps_loop_rl_exhausted garmin_steps (today - 4) _ _ _ e3 h3 r3,
          steps_loop_rl_exhausted garmin_steps (today - 3) _ _ _ e4 h4 r4,
          steps_loop_rl_exhausted garmin_steps (today - 2) _ _ _ e5 h5 r5,
          steps_loop_rl_exhausted garmin_steps (today - 1) _ _ _ e6 h6 r6,
          steps_loop_rl_exhausted garmin_steps today _ _ _ e7 h7 r7,
          steps_loop_nil]
      norm_num
    rw [get_all_daily_steps_of_inr garmin_steps today 0 _ (hrestart 0 (by norm_num))
          (by norm_num),
        get_all_daily_steps_of_inr garmin_steps today 1 _ (hrestart 1 (by norm_num))
          (by norm_num),
        get_all_daily_steps_of_inr garmin_steps today 2 _ (hrestart 2 (by norm_num))
          (by norm_num),
        get_all_daily_steps_of_inl garmin_steps today 3 _ hpass3]
    norm_num

/-- C5 (witness): the theorem applied to oracles that always answer
HTTP 429. -/
theorem c5_witness :
    get_sleep_data (fun _ => Except.error "HTTP 429") 0 = ([10, 20, 40, 80], Option.none) ∧
    get_all_daily_steps (fun _ _ => Except.error "HTTP 429") 0 0 =
      ([10, 20, 40, 80, 80, 80, 80, 80, 80, 80, 80], []) :=
  c5_backoff_schedule_and_degraded_result (fun _ => Except.error "HTTP 429")
    (fun _ _ => Except.error "HTTP 429") 0
    (fun _ => ⟨"HTTP 429", rfl, by decide⟩) (fun _ _ => ⟨"HTTP 429", rfl, by decide⟩)

/-- C6 (counterexample): with `c6_fetch`, the first day's fetch succeeds
and yields one record, the second day hits the rate limit, and the
restarted pass fails throughout; the record already collected for the
first day is discarded and the collector returns the empty list — so a
bad day does discard other days' results. -/
theorem c6_counterexample_first_day_discarded :
    c6_fetch 0 (-7) = Except.ok [c6_day0_record] ∧
    get_all_daily_steps c6_fetch 0 0 = ([1/2, 10], []) := by
  constructor
  · rfl
  · have hfail : ∀ d : ℤ, c6_fetch 1 d = Except.error "connection reset" := fun d => rfl
    have hpass1 :
        get_all_daily_steps_loop c6_fetch 1 (get_all_daily_steps_range 0) [] [] =
          Sum.inl ([], []) := by
      rw [get_all_daily_steps_range_eq,
          steps_loop_other_error c6_fetch 1 _ _ _ _ _ (hfail _) (by decide),
          steps_loop_other_error c6_fetch 1 _ _ _ _ _ (hfail _) (by decide),
          steps_loop_other_error c6_fetch 1 _ _ _ _ _ (hfail _) (by decide),
          steps_loop_other_error c6_fetch 1 _ _ _ _ _ (hfail _) (by decide),
          steps_loop_other_error c6_fetch 1 _ _ _ _ _ (hfail _) (by decide),
          steps_loop_other_error c6_fetch 1 _ _ _ _ _ (hfail _) (by decide),
          steps_loop_other_error c6_fetch 1 _ _ _ _ _ (hfail _) (by decide),
          steps_loop_other_error c6_fetch 1 _ _ _ _ _ (hfail _) (by decide),
          steps_loop_nil]
    have hpass0 :
        get_all_daily_steps_loop c6_fetch 0 (get_all_daily_steps_range 0) [] [] =
          Sum.inr [1/2, 10] := by
      rw [get_all_daily_steps_range_eq]
      norm_num
      rw [steps_loop_ok c6_fetch 0 (-7) _ _ _ [c6_day0_record] (by norm_num [c6_fetch]),
          steps_loop_rl_restart c6_fetch 0 (-6) _ _ _ "429 Too Many Requests"
            (by norm_num [c6_fetch]) (by decide) (by norm_num)]
      norm_num
    rw [get_all_daily_steps_of_inr c6_fetch 0 0 _ hpass0 (by norm_num),
        get_all_daily_steps_of_inl c6_fetch 0 1 _ hpass1]
    norm_num

/-- C6 (amended): the collector walks the inclusive 8-day range in
ascending order; a day failing with a non-rate-limit error, or
rate-limited with the retry budget exhausted (counter 3), is skipped
while earlier results are retained and collection continues; but a
rate-limited failure with retries left abandons the whole pass,
discarding the records accumulated in it: the collector's output is
exactly that of the restarted pass. -/
theorem c6_amended_restart_discards_pass (fetch : Nat → ℤ → Except String (List PyVal))
    (today : ℤ) (rc : Nat) (d : ℤ) (ds : List ℤ) (acc : List PyVal) (log : List ℚ)
    (L : List ℚ) (e : String) :
    get_all_daily_steps_range today =
      [today - 7, today - 6, today - 5, today - 4, today - 3, today - 2, today - 1, today] ∧
    (fetch rc d = Except.error e → is_rate_limit e = false →
      get_all_daily_steps_loop fetch rc (d :: ds) acc log =
        get_all_daily_steps_loop fetch rc ds acc log) ∧
    (fetch 3 d = Except.error e → is_rate_limit e = true →
      get_all_daily_steps_loop fetch 3 (d :: ds) acc log =
        get_all_daily_steps_loop fetch 3 ds acc (log ++ [80])) ∧
    (fetch rc d = Except.error e → is_rate_limit e = true → rc < 3 →
      get_all_daily_steps_loop fetch rc (d :: ds) acc log = Sum.inr (log ++ [10 * 2 ^ rc])) ∧
    (get_all_daily_steps_loop fetch rc (get_all_daily_steps_range today) [] [] = Sum.inr L →
      rc < 3 →
      get_all_daily_steps fetch today rc =
        (L ++ (get_all_daily_steps fetch today (rc + 1)).1,
         (get_all_daily_steps fetch today (rc + 1)).2)) :=
  ⟨get_all_daily_steps_range_eq today,
   fun hf hrl => steps_loop_other_error fetch rc d ds acc log e hf hrl,
   fun hf hrl => steps_loop_rl_exhausted fetch d ds acc log e hf hrl,
   fun hf hrl hlt => steps_loop_rl_restart fetch rc d ds acc log e hf hrl hlt,
   fun h hlt => get_all_daily_steps_of_inr fetch today rc L h hlt⟩

/-- C6 (witness): the amended theorem applied to the concrete `c6_fetch`
scenario — a skipped plain-error day and a pass-abandoning rate-limited
day. -/
theorem c6_amended_witness :
    get_all_daily_steps_loop c6_fetch 1 [-7, -6] [] [] =
      get_all_daily_steps_loop c6_fetch 1 [-6] [] [] ∧
    get_all_daily_steps_loop c6_fetch 0 ((-6) :: []) [c6_day0_record] [1/2] =
      Sum.inr ([1/2] ++ [10 * 2 ^ 0]) :=
  ⟨(c6_amended_restart_discards_pass c6_fetch 0 1 (-7) [-6] [] [] [] "connection reset").2.1
      rfl (by decide),
   (c6_amended_restart_discards_pass c6_fetch 0 0 (-6) [] [c6_day0_record] [1/2] []
      "429 Too Many Requests").2.2.2.1 rfl (by decide) (by norm_num)⟩

/-- The exercise query returns at least one row exactly when the
activity table has a row on the date whose category is present and is
not "Walking". -/
theorem activity_query_pos_iff (table : List ActivityRow) (d : String) :
    0 < (activity_query table d).length ↔
      ∃ r ∈ table, r.date = d ∧ ∃ c, r.activityType = some c ∧ c ≠ "Walking" := by
  rw [List.length_pos]
  constructor
  · intro hne
    obtain ⟨r, hr⟩ := List.exists_mem_of_ne_nil _ hne
    rw [activity_query, List.mem_filter] at hr
    obtain ⟨hmem, hp⟩ := hr
    refine ⟨r, hmem, ?_⟩
    cases hAT : r.activityType with
    | none => rw [hAT] at hp; simp at hp
    | some c =>
      rw [hAT] at hp
      simp at hp
      exact ⟨hp.1, c, rfl, hp.2⟩
  · rintro ⟨r, hmem, hd, c, hc, hne⟩
    apply List.ne_nil_of_mem (a := r)
    rw [activity_query, List.mem_filter]
    exact ⟨hmem, by simp [hd, hc, hne]⟩

/-- The sleep-goal branch of `update_wellness_database` computes
`duration ≥ 7 AND score ≥ 85` (with Python's short-circuit `and`) when
the extracted score is numeric. -/
theorem sleep_goal_branch_eq (dur score : ℚ) :
    (if dur ≥ (7 : ℚ) then pyGeNum (PyVal.num score) 85 else Except.ok false) =
      Except.ok (decide (dur ≥ 7 ∧ score ≥ 85)) := by
  by_cases hd7 : dur ≥ (7 : ℚ)
  · rw [if_pos hd7]
    simp [pyGeNum, hd7]
  · rw [if_neg hd7]
    simp [hd7]

/-- C7: for a record carrying its fields, the wellness write's flags are
exactly `stepsGoalMet = totalSteps ≥ stepGoal`, `sleepGoalMet =
durationHours ≥ 7 AND score ≥ 85`, and `exerciseLogged = the activity
query for the date returns at least one row, i.e. the table has a row on
that date whose category is present and not "Walking"`. -/
theorem c7_wellness_flags (wdb : String) (hwdb : ¬ wdb = "") (steps : DailyStepRecord)
    (d : String) (hdate : steps.calendarDate = some d) (ts sg : ℚ)
    (hts : steps.totalSteps = some ts) (hsg : steps.stepGoal = some sg)
    (fetchSl : Nat → Except String PyVal) (dur score : ℚ)
    (hex : extract_sleep_metrics (((get_sleep_data fetchSl 0).2).getD PyVal.none) =
      Except.ok (dur, PyVal.num score))
    (activity_table : List ActivityRow) (existing : List WellnessRow) :
    ∃ w : WellnessWrite,
      update_wellness_database (some wdb) steps fetchSl
        (Except.ok (activity_query activity_table d)) (Except.ok existing) (Except.ok ()) =
        Except.ok (WellnessOutcome.wrote w) ∧
      w.props =
        wellness_properties (some d) (decide (ts ≥ sg)) (decide (dur ≥ 7 ∧ score ≥ 85))
          (decide (∃ r ∈ activity_table, r.date = d ∧
            ∃ c, r.activityType = some c ∧ c ≠ "Walking")) := by
  have hts2 : steps.totalSteps.getD 0 = ts := by rw [hts]; rfl
  have hsg2 : steps.stepGoal.getD 10000 = sg := by rw [hsg]; rfl
  have hexflag : (decide (0 < (activity_query activity_table d).length)) =
      decide (∃ r ∈ activity_table, r.date = d ∧
        ∃ c, r.activityType = some c ∧ c ≠ "Walking") :=
    decide_eq_decide.mpr (activity_query_pos_iff activity_table d)
  simp only [update_wellness_database]
  rw [if_neg hwdb, hex]
  dsimp only
  rw [sleep_goal_branch_eq]
  dsimp only
  rw [hts2, hsg2, hdate]
  cases existing with
  | nil =>
    refine ⟨_, rfl, ?_⟩
    dsimp only
    rw [hexflag]
  | cons entry rest =>
    refine ⟨_, rfl, ?_⟩
    dsimp only
    rw [hexflag]

/-- C7 (witness): 15000 steps against a 10000 goal sets stepsGoalMet;
6.5 hours at score 90 leaves sleepGoalMet false; a Running activity on
the date sets exerciseLogged. -/
theorem c7_witness :
    ∃ w : WellnessWrite,
      update_wellness_database (some "wellness-db") c7_steps c7_sleep_fetch
        (Except.ok (activity_query c7_activity_table "2024-01-05")) (Except.ok [])
        (Except.ok ()) = Except.ok (WellnessOutcome.wrote w) ∧
      w.props = wellness_properties (some "2024-01-05") true false true := by
  have hex : extract_sleep_metrics (((get_sleep_data c7_sleep_fetch 0).2).getD PyVal.none) =
      Except.ok (13/2, PyVal.num 90) := by
    rw [get_sleep_data_success c7_sleep_fetch 0
      (PyVal.dict [("sleepTimeSeconds", PyVal.num 23400), ("sleepScore", PyVal.num 90)]) rfl]
    show Except.ok ((23400 : ℚ) / 3600, PyVal.num 90) = Except.ok (13/2, PyVal.num 90)
    norm_num
  obtain ⟨w, hw, hp⟩ := c7_wellness_flags "wellness-db" (by decide) c7_steps "2024-01-05" rfl
    15000 10000 rfl rfl c7_sleep_fetch (13/2) 90 hex c7_activity_table []
  refine ⟨w, hw, ?_⟩
  rw [hp]
  have f1 : (decide ((15000 : ℚ) ≥ 10000)) = true := by
    simp only [decide_eq_true_eq]
    norm_num
  have f2 : (decide ((13/2 : ℚ) ≥ 7 ∧ (90 : ℚ) ≥ 85)) = false := by
    rw [decide_eq_false_iff_not]
    intro hcon
    exact absurd hcon.1 (by norm_num)
  have f3 : (decide (∃ r ∈ c7_activity_table, r.date = "2024-01-05" ∧
      ∃ c, r.activityType = some c ∧ c ≠ "Walking")) = true := by decide
  rw [f1, f2, f3]

/-- C8 (counterexample): an error raised by the exercise-activity query
propagates out of `update_wellness_database` — only the final
create/update sits inside the `try`/`except`. -/
theorem c8_counterexample_query_error_propagates :
    update_wellness_database (some "wellness-db") c8_steps
      (fun _ => Except.error "server offline") (Except.error "boom") (Except.ok [])
      (Except.ok ()) = Except.error "boom" := by
  have hsd : get_sleep_data (fun _ => Except.error "server offline") 0 = ([], Option.none) :=
    get_sleep_data_other_error _ 0 _ rfl (by decide)
  simp only [update_wellness_database]
  rw [if_neg (by decide : ¬ ("wellness-db" : String) = ""), hsd]
  dsimp only
  rw [show extract_sleep_metrics (Option.getD Option.none PyVal.none) =
    Except.ok (0, PyVal.num 0) from rfl]
  dsimp only
  rw [sleep_goal_branch_eq]

/-- C8 (amended): only an exception raised by the final create/update of
the wellness row is caught and logged (the function still returns
normally, recording the failed write); an exception from the
exercise-activity query or from the existing-entry query is not caught
and propagates out of `update_wellness_database`. -/
theorem c8_amended_only_write_errors_caught (wdb : String) (hwdb : ¬ wdb = "")
    (steps : DailyStepRecord) (fetchSl : Nat → Except String PyVal) (dur score : ℚ)
    (hex : extract_sleep_metrics (((get_sleep_data fetchSl 0).2).getD PyVal.none) =
      Except.ok (dur, PyVal.num score))
    (acts : List ActivityRow) (existing : List WellnessRow) (e : String)
    (q2 : Except String (List WellnessRow)) (wr : Except String Unit) :
    (∃ w, update_wellness_database (some wdb) steps fetchSl (Except.ok acts)
        (Except.ok existing) (Except.error e) =
        Except.ok (WellnessOutcome.writeFailed w e)) ∧
    update_wellness_database (some wdb) steps fetchSl (Except.error e) q2 wr =
      Except.error e ∧
    update_wellness_database (some wdb) steps fetchSl (Except.ok acts) (Except.error e) wr =
      Except.error e := by
  refine ⟨?_, ?_, ?_⟩
  · simp only [update_wellness_database]
    rw [if_neg hwdb, hex]
    dsimp only
    rw [sleep_goal_branch_eq]
    dsimp only
    cases existing with
    | nil => exact ⟨_, rfl⟩
    | cons entry rest => exact ⟨_, rfl⟩
  · simp only [update_wellness_database]
    rw [if_neg hwdb, hex]
    dsimp only
    rw [sleep_goal_branch_eq]
  · simp only [update_wellness_database]
    rw [if_neg hwdb, hex]
    dsimp only
    rw [sleep_goal_branch_eq]

/-- C8 (witness): with a concrete record and oracles, a failed final
write is caught and recorded while a failed exercise query or
existing-entry query propagates. -/
theorem c8_amended_witness :
    (∃ w, update_wellness_database (some "wellness-db") c8_steps
        (fun _ => Except.error "server offline") (Except.ok []) (Except.ok [])
        (Except.error "write failed") =
        Except.ok (WellnessOutcome.writeFailed w "write failed")) ∧
    update_wellness_database (some "wellness-db") c8_steps
      (fun _ => Except.error "server offline") (Except.error "query down") (Except.ok [])
      (Except.ok ()) = Except.error "query down" ∧
    update_wellness_database (some "wellness-db") c8_steps
      (fun _ => Except.error "server offline") (Except.ok []) (Except.error "query down")
      (Except.ok ()) = Except.error "query down" := by
  have hex : extract_sleep_metrics
      (((get_sleep_data (fun _ => Except.error "server offline") 0).2).getD PyVal.none) =
      Except.ok (0, PyVal.num 0) := by
    rw [get_sleep_data_other_error _ 0 _ rfl (by decide)]
    rfl
  exact ⟨(c8_amended_only_write_errors_caught "wellness-db" (by decide) c8_steps _ 0 0 hex
      [] [] "write failed" (Except.ok []) (Except.ok ())).1,
    (c8_amended_only_write_errors_caught "wellness-db" (by decide) c8_steps _ 0 0 hex
      [] [] "query down" (Except.ok []) (Except.ok ())).2.1,
    (c8_amended_only_write_errors_caught "wellness-db" (by decide) c8_steps _ 0 0 hex
      [] [] "query down" (Except.ok []) (Except.ok ())).2.2⟩

/-- C9: login depends only on attempts 0 and 1 (at most one retry); a
non-rate-limit first failure aborts with no processing; a rate-limited
first failure followed by a failed retry aborts with no processing; a
rate-limited first failure followed by a successful retry proceeds to
the full processing. -/
theorem c9_login_failure_is_fatal (garmin_login garmin_login2 : Nat → Except String Unit)
    (processing : List SyncAction) (e e2 : String) :
    (garmin_login 0 = garmin_login2 0 → garmin_login 1 = garmin_login2 1 →
      main garmin_login processing = main garmin_login2 processing) ∧
    (garmin_login 0 = Except.error e → is_rate_limit e = false →
      main garmin_login processing = Option.none) ∧
    (garmin_login 0 = Except.error e → is_rate_limit e = true →
      garmin_login 1 = Except.error e2 → main garmin_login processing = Option.none) ∧
    (garmin_login 0 = Except.error e → is_rate_limit e = true →
      garmin_login 1 = Except.ok () → main garmin_login processing = some processing) := by
  refine ⟨?_, ?_, ?_, ?_⟩
  · intro h0 h1
    unfold main
    rw [h0, h1]
  · intro h0 hrl
    unfold main
    rw [h0]
    simp [hrl]
  · intro h0 hrl h1
    unfold main
    rw [h0, h1]
    simp [hrl]
  · intro h0 hrl h1
    unfold main
    rw [h0, h1]
    simp [hrl]

/-- C9 (witness): the three login-failure scenarios at concrete
oracles. -/
theorem c9_witness :
    main (fun _ => Except.error "invalid credentials") [] = Option.none ∧
    main (fun n => Except.error (if n = 0 then "429" else "still 429")) [] = Option.none ∧
    main (fun n => if n = 0 then Except.error "429" else Except.ok ()) [] = some [] :=
  ⟨(c9_login_failure_is_fatal (fun _ => Except.error "invalid credentials")
      (fun _ => Except.error "invalid credentials") [] "invalid credentials" "x").2.1 rfl
      (by decide),
   (c9_login_failure_is_fatal (fun n => Except.error (if n = 0 then "429" else "still 429"))
      (fun n => Except.error (if n = 0 then "429" else "still 429")) [] "429" "still 429").2.2.1
      rfl (by decide) rfl,
   (c9_login_failure_is_fatal (fun n => if n = 0 then Except.error "429" else Except.ok ())
      (fun n => if n = 0 then Except.error "429" else Except.ok ()) [] "429" "x").2.2.2
      rfl (by decide) rfl⟩

end DailySteps
